import Mathlib

/-!
# Verification of the sajunlotto knowledge/scoring pipeline

Shallow embedding of the core components of the repository:

* `backend/saju.py`            — element resolver (`analyze_saju`, `get_ganzhi`)
* `backend/prediction_service.py` — weighted scoring engine
  (`calculate_saju_weights`, `predict_with_saju_weighting`,
  `analyze_number_patterns`, `get_saju_analysis`, confidence boost in
  `generate_prediction`)
* `backend/saju_knowledge_enhancer.py` — knowledge aggregator
  (`get_learned_saju_insights`, `_calculate_knowledge_relevance`,
  `_analyze_element_balance_from_knowledge`,
  `_calculate_confidence_modifiers`,
  `_generate_additional_recommendations`, `enhance_prediction_weights`)
* `backend/app/services/youtube_service.py` — text classifier
  (`analyze_saju_content`) and knowledge store search (`search_knowledge`)

Python floats are modelled by `ℚ`, Python strings by `List Char`,
Python dicts keyed by the five elements by a five-field structure.
Ambient state (the wall clock read by `datetime.now()`) is passed
explicitly, and the external `korean_lunar_calendar` library is passed
as a function parameter, so every definition is pure and executable.
-/

namespace SajunLotto

/-! ## Basic helpers -/

/-- Python's `%` on integers: result has the sign of the modulus
(always in `[0, b)` for positive `b`). -/
def pymod (a b : ℤ) : ℤ := ((a % b) + b) % b

theorem pymod_nonneg (a : ℤ) {b : ℤ} (hb : 0 < b) : 0 ≤ pymod a b :=
  Int.emod_nonneg _ (by omega)

theorem pymod_lt (a : ℤ) {b : ℤ} (hb : 0 < b) : pymod a b < b :=
  Int.emod_lt_of_pos _ hb

/-- `leadsWith p s` : the character list `p` is an initial segment of `s`
(model of Python's `str.startswith`, used to define substring search). -/
def leadsWith : List Char → List Char → Bool
  | [], _ => true
  | _ :: _, [] => false
  | a :: p, b :: s => a == b && leadsWith p s

/-- `occursIn p s` : `p` occurs as a contiguous substring of `s`
(model of Python's `p in s` on strings / SQL `LIKE '%p%'` without
case folding). -/
def occursIn (p : List Char) : List Char → Bool
  | [] => leadsWith p []
  | b :: s => leadsWith p (b :: s) || occursIn p s

/-- Arithmetic mean of a list of rationals (`np.mean` / `sum(...)/len(...)`);
only ever used on non-empty lists in the embedding. -/
def meanQ (l : List ℚ) : ℚ := l.sum / (l.length : ℚ)

/-! ## Elements (오행)

The five elements used throughout the code base, keys of Python dicts
`{'목': ..., '화': ..., '토': ..., '금': ..., '수': ...}`. -/

inductive Element
  | mok   -- 목 (wood)
  | hwa   -- 화 (fire)
  | toh   -- 토 (earth)
  | geum  -- 금 (metal)
  | su    -- 수 (water)
deriving DecidableEq, Repr

/-- A dict over the five element keys, values modelled as `ℚ`
(`saju.py` produces integer counts; `saju_knowledge_enhancer.py`
turns them into floats). -/
structure Oheang where
  mok : ℚ
  hwa : ℚ
  toh : ℚ
  geum : ℚ
  su : ℚ
deriving DecidableEq, Repr

namespace Oheang

/-- Dictionary lookup `o[e]`. -/
def get (o : Oheang) : Element → ℚ
  | .mok => o.mok
  | .hwa => o.hwa
  | .toh => o.toh
  | .geum => o.geum
  | .su => o.su

/-- Dictionary update `o[e] = v`. -/
def set (o : Oheang) : Element → ℚ → Oheang
  | .mok, v => { o with mok := v }
  | .hwa, v => { o with hwa := v }
  | .toh, v => { o with toh := v }
  | .geum, v => { o with geum := v }
  | .su, v => { o with su := v }

/-- `list(o.values())` in the fixed key order 목, 화, 토, 금, 수. -/
def values (o : Oheang) : List ℚ := [o.mok, o.hwa, o.toh, o.geum, o.su]

/-- Sum of the five counts. -/
def total (o : Oheang) : ℚ := o.mok + o.hwa + o.toh + o.geum + o.su

/-- `o[e] += 1` (the accumulation step of `analyze_saju`). -/
def bump (o : Oheang) (e : Element) : Oheang := o.set e (o.get e + 1)

theorem total_bump (o : Oheang) (e : Element) : (o.bump e).total = o.total + 1 := by
  cases e <;> simp [bump, set, get, total] <;> ring

end Oheang

/-! ## `backend/saju.py` — the element resolver -/

/-- 천간 (the 10 heavenly stems), `saju.py` line 10. -/
def GAN : List Char := ['갑', '을', '병', '정', '무', '기', '경', '신', '임', '계']

/-- 지지 (the 12 earthly branches), `saju.py` line 13. -/
def JI : List Char := ['자', '축', '인', '묘', '진', '사', '오', '미', '신', '유', '술', '해']

/-- `GAN_OHEANG` (`saju.py` lines 16–22): stem → element.  `none` models a
key absent from the Python dict (the `if gan in GAN_OHEANG` guard). -/
def GAN_OHEANG : Char → Option Element
  | '갑' => some .mok | '을' => some .mok
  | '병' => some .hwa | '정' => some .hwa
  | '무' => some .toh | '기' => some .toh
  | '경' => some .geum | '신' => some .geum
  | '임' => some .su | '계' => some .su
  | _ => none

/-- `JI_OHEANG` (`saju.py` lines 25–31): branch → element. -/
def JI_OHEANG : Char → Option Element
  | '자' => some .su | '해' => some .su
  | '축' => some .toh | '진' => some .toh | '미' => some .toh | '술' => some .toh
  | '인' => some .mok | '묘' => some .mok
  | '사' => some .hwa | '오' => some .hwa
  | '신' => some .geum | '유' => some .geum
  | _ => none

/-- `get_ganzhi(year)` (`saju.py` lines 33–44): the 60-cycle stem/branch
pair of a year, anchored at 1984 (갑자).  The computed indices are
always in range, so the `getD` defaults are unreachable. -/
def get_ganzhi (year : ℤ) : Char × Char :=
  let year_diff := year - 1984
  let gan_index := pymod year_diff 10
  let ji_index := pymod year_diff 12
  (GAN.getD gan_index.toNat '갑', JI.getD ji_index.toNat '자')

/-- Gregorian leap year test (semantics of `datetime.date`). -/
def isLeapYear (y : ℕ) : Bool := y % 4 == 0 && (y % 100 != 0 || y % 400 == 0)

/-- Number of days in a month (semantics of `datetime.date`). -/
def daysInMonth (y m : ℕ) : ℕ :=
  if m == 2 then (if isLeapYear y then 29 else 28)
  else if m == 4 || m == 6 || m == 9 || m == 11 then 30
  else 31

/-- Validity of a `datetime.date(year, month, day)` construction:
`datetime` raises `ValueError` outside these bounds
(`MINYEAR = 1`, `MAXYEAR = 9999`). -/
def dateValid (y m d : ℕ) : Bool :=
  1 ≤ y && y ≤ 9999 && 1 ≤ m && m ≤ 12 && 1 ≤ d && d ≤ daysInMonth y m

/-- Day count of a valid proleptic-Gregorian date (days since 1970-01-01,
standard civil-from-days arithmetic).  Models `datetime.date.toordinal`
up to a constant, which cancels in the date subtraction of `saju.py`
lines 74–76. -/
def daysFromCivil (y m d : ℕ) : ℤ :=
  let y2 := if m ≤ 2 then y - 1 else y
  let era := y2 / 400
  let yoe := y2 % 400
  let mp := if 2 < m then m - 3 else m + 9
  let doy := (153 * mp + 2) / 5 + d - 1
  let doe := yoe * 365 + yoe / 4 - yoe / 100 + doy
  (era : ℤ) * 146097 + (doe : ℤ) - 719468

/-- The four stem/branch pillars (`saju` dict of `analyze_saju`). -/
structure Pillars where
  year : Char × Char
  month : Char × Char
  day : Char × Char
  hour : Char × Char
deriving DecidableEq, Repr

/-- Result dict of `analyze_saju` (`saju.py` lines 124–133 on success,
lines 140–151 on the error fallback).  `analysis_date` holds the wall
clock value read by `datetime.datetime.now()`, passed in explicitly;
`error` is `none` on the success path. -/
structure SajuResult where
  saju : Pillars
  oheang : Oheang
  lunar_info : ℕ × ℕ × ℕ
  analysis_date : ℕ
  error : Option String
deriving DecidableEq, Repr

/-- One pass of `for gan in all_gan: if gan in GAN_OHEANG: count += 1`
(`saju.py` lines 115–117). -/
def addGan (o : Oheang) (c : Char) : Oheang :=
  match GAN_OHEANG c with
  | some e => o.bump e
  | none => o

/-- One pass of `for ji in all_ji: if ji in JI_OHEANG: count += 1`
(`saju.py` lines 119–121). -/
def addJi (o : Oheang) (c : Char) : Oheang :=
  match JI_OHEANG c with
  | some e => o.bump e
  | none => o

/-- The external `korean_lunar_calendar` conversion
(`calendar.setSolarDate`; not part of this repository): a solar
(year, month, day) is turned into a lunar (year, month, day).  Modelled
as an arbitrary function parameter — every theorem below holds for any
such conversion. -/
abbrev LunarConv := ℕ → ℕ → ℕ → ℕ × ℕ × ℕ

/-- The body of the `try:` block of `analyze_saju` (`saju.py` lines
51–135).  `.error` is the `ValueError` raised by
`datetime.date(year, month, day)` on an invalid date (line 75); all
other operations in the block are total. -/
def analyze_saju_try (lunar : LunarConv) (now : ℕ)
    (year month day hour : ℕ) : Except String SajuResult :=
  if ¬ dateValid year month day then
    .error "day is out of range for month"
  else
    let lun := lunar year month day
    let lunar_year := lun.1
    let lunar_month := lun.2.1
    let lunar_day := lun.2.2
    -- 년주 (saju.py line 63)
    let year_gz := get_ganzhi lunar_year
    let year_gan := year_gz.1
    let year_ji := year_gz.2
    -- 월주 (saju.py lines 67–70)
    let month_gan_index := pymod (((lunar_year : ℤ) - 1984) * 12 + (lunar_month : ℤ) - 1) 10
    let month_ji_index := pymod ((lunar_month : ℤ) - 1) 12
    let month_gan := GAN.getD month_gan_index.toNat '갑'
    let month_ji := JI.getD month_ji_index.toNat '자'
    -- 일주 (saju.py lines 74–81): day difference from 1984-02-02 (갑자일)
    let day_diff := daysFromCivil year month day - daysFromCivil 1984 2 2
    let day_gan_index := pymod day_diff 10
    let day_ji_index := pymod day_diff 12
    let day_gan := GAN.getD day_gan_index.toNat '갑'
    let day_ji := JI.getD day_ji_index.toNat '자'
    -- 시주 (saju.py lines 84–98)
    let hour_ji_index := ((hour + 1) / 2) % 12
    let hour_ji := JI.getD hour_ji_index '자'
    let hour_gan_start : ℕ :=
      match day_gan with
      | '갑' => 0 | '기' => 0
      | '을' => 2 | '경' => 2
      | '병' => 4 | '신' => 4
      | '정' => 6 | '임' => 6
      | '무' => 8 | '계' => 8
      | _ => 0   -- `.get(day_gan, 0)` default
    let hour_gan_index := (hour_gan_start + hour_ji_index) % 10
    let hour_gan := GAN.getD hour_gan_index '갑'
    -- 오행 분포 계산 (saju.py lines 109–121)
    let all_gan := [year_gan, month_gan, day_gan, hour_gan]
    let all_ji := [year_ji, month_ji, day_ji, hour_ji]
    let oheang_count := all_ji.foldl addJi (all_gan.foldl addGan ⟨0, 0, 0, 0, 0⟩)
    .ok
      { saju :=
          { year := (year_gan, year_ji)
            month := (month_gan, month_ji)
            day := (day_gan, day_ji)
            hour := (hour_gan, hour_ji) }
        oheang := oheang_count
        lunar_info := (lunar_year, lunar_month, lunar_day)
        analysis_date := now
        error := none }

/-- `analyze_saju` (`saju.py` lines 46–151): the `try`/`except` wrapper —
any internal error is caught and a fixed default result is returned
(lines 140–151), with the error message recorded in the `error` field. -/
def analyze_saju (lunar : LunarConv) (now : ℕ)
    (year month day hour : ℕ) : SajuResult :=
  match analyze_saju_try lunar now year month day hour with
  | .ok r => r
  | .error e =>
      { saju :=
          { year := ('갑', '자'), month := ('갑', '자')
            day := ('갑', '자'), hour := ('갑', '자') }
        oheang := ⟨1, 1, 2, 2, 2⟩
        lunar_info := (year, month, day)
        analysis_date := now
        error := some e }

/-- `PredictionService.get_saju_analysis` (`prediction_service.py` lines
188–221).  `analyze_saju` always returns a dict carrying an `oheang`
entry with the full five keys, so the normalisation loop (lines
198–201) is the identity and the outer `except` branch is unreachable;
the caller receives the resolver's histogram unchanged — including the
fabricated fallback one. -/
def get_saju_analysis (lunar : LunarConv) (now : ℕ)
    (year month day hour : ℕ) : Oheang :=
  (analyze_saju lunar now year month day hour).oheang

/-! ## `backend/prediction_service.py` — the weighted scoring engine -/

/-- `self.oheang_ranges` (`prediction_service.py` lines 21–27): the fixed
partition of 1..45 into five contiguous element ranges. -/
def oheang_ranges (e : Element) : ℕ × ℕ :=
  match e with
  | .mok => (1, 9)
  | .hwa => (10, 19)
  | .toh => (20, 29)
  | .geum => (30, 39)
  | .su => (40, 45)

/-- `_get_number_element` (`prediction_service.py` lines 180–186):
`none` models the `'기타'` (other) fallback for numbers outside 1..45. -/
def get_number_element (number : ℕ) : Option Element :=
  [Element.mok, .hwa, .toh, .geum, .su].findSome? fun e =>
    let (s, en) := oheang_ranges e
    if s ≤ number ∧ number ≤ en then some e else none

/-- `max(saju_oheang.values())` (`prediction_service.py` line 96); the
dict always carries the five keys, so the `else 1` branch of the
Python expression is unreachable. -/
def maxOheang (o : Oheang) : ℚ :=
  match o.values with
  | [] => 1
  | v :: vs => vs.foldl max v

/-- `calculate_saju_weights` (`prediction_service.py` lines 93–106). -/
def calculate_saju_weights (saju_oheang : Oheang) (e : Element) : ℚ :=
  let max_count := maxOheang saju_oheang
  let count := saju_oheang.get e
  if count > 0 then 1 + count / max_count * (1 / 2) else 1

/-- One entry of the `number_scores` list built by
`predict_with_saju_weighting` (`prediction_service.py` lines 127–133;
the presentational `saju_explanation` string of lines 139–141 is not
modelled, and `compatibility` is carried per lines 136–138). -/
structure ScoreInfo where
  number : ℕ
  score : ℚ
  element : Option Element
  frequency : ℕ
  weight : ℚ
  compatibility : ℚ
deriving DecidableEq, Repr

/-- `number_scores.sort(key=lambda x: x['score'], reverse=True)`
(`prediction_service.py` line 144): Python's stable descending sort,
modelled by insertion sort with the non-strict comparison
"earlier element's score is ≥" (ties keep their original order). -/
def scoreDescR (a b : ScoreInfo) : Prop := b.score ≤ a.score

instance : DecidableRel scoreDescR := fun a b => inferInstanceAs (Decidable (b.score ≤ a.score))

instance : IsTotal ScoreInfo scoreDescR := ⟨fun a b => le_total b.score a.score⟩

instance : IsTrans ScoreInfo scoreDescR := ⟨fun _ _ _ h h' => le_trans h' h⟩

/-- Selection loop of `predict_with_saju_weighting`
(`prediction_service.py` lines 147–156): walk the score-sorted list,
keep a number if it is unused and lies in 1..45, stop at 7. -/
def pickNumbers : List ScoreInfo → List ℕ → List ℕ
  | [], acc => acc
  | si :: rest, acc =>
      if acc.length = 7 then acc
      else if si.number ∉ acc ∧ 1 ≤ si.number ∧ si.number ≤ 45 then
        pickNumbers rest (acc ++ [si.number])
      else pickNumbers rest acc

/-- Fill loop of `predict_with_saju_weighting` (`prediction_service.py`
lines 159–165): while fewer than 7 numbers are selected, append the
lowest unused numbers of 1..45 in ascending order.  One pass over
1..45 always reaches 7, so the enclosing `while` runs at most once. -/
def fillNumbers : List ℕ → List ℕ → List ℕ
  | [], acc => acc
  | n :: rest, acc =>
      if 7 ≤ acc.length then acc
      else if n ∈ acc then fillNumbers rest acc
      else fillNumbers rest (acc ++ [n])

/-- Result dict of `predict_with_saju_weighting`
(`prediction_service.py` lines 173–178). -/
structure PredictionOutput where
  predicted_numbers : List ℕ
  number_scores : List ScoreInfo
  confidence : ℚ
deriving DecidableEq, Repr

/-- The per-number score entries of `predict_with_saju_weighting`
(`prediction_service.py` lines 117–133; `compatibility` is filled in
by a later pass). -/
def score_entries (top_numbers : List (ℕ × ℕ)) (saju_oheang : Oheang) :
    List ScoreInfo :=
  top_numbers.map fun nf =>
    let element := get_number_element nf.1
    let weight := match element with
      | some e => calculate_saju_weights saju_oheang e
      | none => 1         -- `element_weights.get(element, 1.0)`
    { number := nf.1, score := (nf.2 : ℚ) * weight, element := element
      frequency := nf.2, weight := weight, compatibility := 0 }

/-- The running maximum `max_score` (`prediction_service.py` lines 118
and 125), starting from 0. -/
def max_score_of (top_numbers : List (ℕ × ℕ)) (saju_oheang : Oheang) : ℚ :=
  (score_entries top_numbers saju_oheang).foldl (fun m si => max m si.score) 0

/-- The compatibility pass (`prediction_service.py` lines 136–138). -/
def scores_with_compat (top_numbers : List (ℕ × ℕ)) (saju_oheang : Oheang) :
    List ScoreInfo :=
  let max_score := max_score_of top_numbers saju_oheang
  (score_entries top_numbers saju_oheang).map fun si =>
    { si with compatibility :=
        if max_score > 0 then min 100 (si.score / max_score * 100) else 50 }

/-- `number_scores` after the stable descending sort of
`prediction_service.py` line 144. -/
def sorted_scores_of (top_numbers : List (ℕ × ℕ)) (saju_oheang : Oheang) :
    List ScoreInfo :=
  (scores_with_compat top_numbers saju_oheang).insertionSort scoreDescR

/-- `predicted_numbers` (`prediction_service.py` lines 147–167):
selection of the top 7 unique in-range numbers, ascending fill of any
shortfall, final ascending sort. -/
def predicted_numbers_of (top_numbers : List (ℕ × ℕ)) (saju_oheang : Oheang) :
    List ℕ :=
  let picked := pickNumbers (sorted_scores_of top_numbers saju_oheang) []
  let filled := fillNumbers (List.range' 1 45) picked
  filled.insertionSort (· ≤ ·)

/-- The confidence value of `predict_with_saju_weighting`
(`prediction_service.py` lines 169–171 and 177): mean of the top-7
scores over `max_score` (0.5 when `max_score` is 0), capped at 1. -/
def confidence_of (top_numbers : List (ℕ × ℕ)) (saju_oheang : Oheang) : ℚ :=
  let max_score := max_score_of top_numbers saju_oheang
  let top_7_scores := ((sorted_scores_of top_numbers saju_oheang).take 7).map (·.score)
  min (if max_score > 0 then meanQ top_7_scores / max_score else 1 / 2) 1

/-- `predict_with_saju_weighting` (`prediction_service.py` lines
108–178).  `top_numbers` is the `(number, frequency)` candidate list
handed in by `generate_prediction`. -/
def predict_with_saju_weighting (top_numbers : List (ℕ × ℕ))
    (saju_oheang : Oheang) : PredictionOutput :=
  { predicted_numbers := predicted_numbers_of top_numbers saju_oheang
    number_scores := (sorted_scores_of top_numbers saju_oheang).take 15
    confidence := confidence_of top_numbers saju_oheang }

/-- Comparison for `sorted(number_freq.items(), key=lambda x: x[1],
reverse=True)` (`prediction_service.py` line 74): stable descending
sort on the frequency component. -/
def freqDescR (a b : ℕ × ℕ) : Prop := b.2 ≤ a.2

instance : DecidableRel freqDescR := fun a b => inferInstanceAs (Decidable (b.2 ≤ a.2))

instance : IsTotal (ℕ × ℕ) freqDescR := ⟨fun a b => le_total b.2 a.2⟩

instance : IsTrans (ℕ × ℕ) freqDescR := ⟨fun _ _ _ h h' => le_trans h' h⟩

/-- The `top_numbers` computation of `analyze_number_patterns`
(`prediction_service.py` lines 68–74), taking the frequency table
`number_freq : 1..45 → count` as input: list the 45 numbers with their
frequencies in ascending number order (the dict's insertion order) and
keep the 15 most frequent (stable, so ties stay in number order). -/
def analyze_top_numbers (freq : ℕ → ℕ) : List (ℕ × ℕ) :=
  let pairs := (List.range' 1 45).map fun n => (n, freq n)
  (pairs.insertionSort freqDescR).take 15

/-- The full read path for a given frequency table
(`generate_prediction`, `prediction_service.py` lines 258–264): the
scoring engine is invoked on the top-15 candidate list, not on all 45
numbers. -/
def predict_pipeline (freq : ℕ → ℕ) (saju_oheang : Oheang) : PredictionOutput :=
  predict_with_saju_weighting (analyze_top_numbers freq) saju_oheang

/-- Confidence-boost application of `generate_prediction`
(`prediction_service.py` lines 289–291): the boost is added and capped
at 1 only when it is positive. -/
def apply_confidence_boost (confidence boost : ℚ) : ℚ :=
  if boost > 0 then min 1 (confidence + boost) else confidence

/-! ## `backend/app/services/youtube_service.py` — text classifier and store -/

/-- Shorthand: a Python string as a list of characters. -/
def lc (s : String) : List Char := s.toList

/-- `self.saju_terms` (`youtube_service.py` lines 49–85): the static term
dictionary, in dict insertion order. -/
def saju_terms : List (String × List (List Char)) :=
  [ ("천간", ["갑", "을", "병", "정", "무", "기", "경", "신", "임", "계"].map lc)
  , ("지지", ["자", "축", "인", "묘", "진", "사", "오", "미", "신", "유", "술", "해"].map lc)
  , ("오행", ["목", "화", "토", "금", "수", "나무", "불", "흙", "쇠", "물"].map lc)
  , ("십신", ["비견", "겁재", "식신", "상관", "편재", "정재", "편관", "정관", "편인", "정인"].map lc)
  , ("육친", ["부모", "형제", "부부", "자녀", "친구", "직장"].map lc)
  , ("운세", ["대운", "세운", "월운", "일운", "시운", "길운", "흉운", "화", "복"].map lc)
  , ("궁합", ["상생", "상극", "조화", "충돌", "합", "형", "해", "파"].map lc)
  , ("성격", ["성격", "기질", "성향", "특성", "장점", "단점", "재능", "능력"].map lc)
  , ("직업", ["직업", "진로", "적성", "사업", "취업", "창업", "발전", "성공"].map lc)
  , ("건강", ["건강", "체질", "질병", "장수", "수명", "병", "약", "치료"].map lc)
  , ("재물", ["돈", "재물", "재운", "부", "투자", "사업", "수입", "지출", "저축"].map lc)
  , ("애정", ["사랑", "연애", "결혼", "이혼", "배우자", "만남", "이별", "화합"].map lc) ]

/-- `self.sentence_types` (`youtube_service.py` lines 88–93), in dict
insertion order. -/
def sentence_type_keywords : List (String × List (List Char)) :=
  [ ("interpretation", ["해석", "의미", "뜻", "표현", "나타낸", "보여준", "말해준"].map lc)
  , ("prediction", ["예측", "운세", "미래", "앞으로", "될것", "가능성", "경향", "흐름"].map lc)
  , ("personality", ["성격", "기질", "성향", "특성", "타입", "스타일", "면모", "모습"].map lc)
  , ("relationship", ["관계", "궁합", "만남", "상대", "파트너", "연인", "배우자", "가족"].map lc) ]

/-- Return dict of `analyze_saju_content` (`youtube_service.py` lines
211–217). -/
structure ContentAnalysis where
  found_terms : List (String × List (List Char))
  sentence_type : String
  confidence : ℚ
  term_count : ℕ
  text_length : ℕ
deriving DecidableEq, Repr

/-- The `found_terms` loop of `analyze_saju_content`
(`youtube_service.py` lines 187–194): every category keeps the terms
occurring in the text; a category with no match is left out of the
dict. -/
def collectFoundTerms (text : List Char) :
    List (String × List (List Char)) → List (String × List (List Char))
  | [] => []
  | ct :: rest =>
      let found_in_category := ct.2.filter fun term => occursIn term text
      if found_in_category.isEmpty then collectFoundTerms text rest
      else (ct.1, found_in_category) :: collectFoundTerms text rest

/-- `analyze_saju_content` (`youtube_service.py` lines 183–217): a term
counts once per category when it occurs in the text (`if term in text`
membership, not an occurrence count); the confidence is the number of
matched terms divided by `max(len(text)/100, 1)`, capped at 1. -/
def analyze_saju_content (text : List Char) : ContentAnalysis :=
  let found_terms := collectFoundTerms text saju_terms
  -- lines 197–204: argmax over keyword-hit counts, strict improvement
  -- only, default 'general'
  let sentence_type := (sentence_type_keywords.foldl
    (fun (acc : String × ℕ) (p : String × List (List Char)) =>
      let score := (p.2.filter fun keyword => occursIn keyword text).length
      if score > acc.2 then (p.1, score) else acc)
    ("general", 0)).1
  -- lines 207–209
  let total_terms : ℕ := (found_terms.map fun p => p.2.length).sum
  let text_length := text.length
  let confidence : ℚ := min ((total_terms : ℚ) / max ((text_length : ℚ) / 100) 1) 1
  { found_terms := found_terms, sentence_type := sentence_type
    confidence := confidence, term_count := total_terms, text_length := text_length }

/-- A row of the `saju_knowledge` table as selected by
`search_knowledge` (`youtube_service.py` lines 319–325).
`saju_terms_serialized` is the stored `json.dumps` of the matched-terms
dict; `created_at` is the insertion timestamp (larger = more recent). -/
structure KnowledgeRow where
  video_id : String
  video_title : String
  content : List Char
  saju_terms_serialized : List Char
  sentence_type : String
  confidence : ℚ
  created_at : ℕ
deriving DecidableEq, Repr

/-- ASCII lower-casing of one character: SQLite's `LIKE` folds exactly
the ASCII range (and Python's `str.lower()` agrees there; Korean
characters are unchanged by both). -/
def asciiLower (c : Char) : Char :=
  if 'A' ≤ c && c ≤ 'Z' then Char.ofNat (c.toNat + 32) else c

/-- SQLite `column LIKE '%q%'` for a pattern body `q` containing no
wildcard metacharacters: substring match after ASCII case folding.
SQLite's documented default `LIKE` semantics is case-insensitive for
the ASCII range. -/
def sqliteLikeInfix (q s : List Char) : Bool :=
  occursIn (q.map asciiLower) (s.map asciiLower)

/-- The `ORDER BY confidence DESC, created_at DESC` comparison
(`youtube_service.py` line 323); rows fully tied on both keys are kept
in table order (one deterministic refinement of SQLite's unspecified
tie order). -/
def rowDescR (a b : KnowledgeRow) : Prop :=
  b.confidence < a.confidence ∨
    (a.confidence = b.confidence ∧ b.created_at ≤ a.created_at)

instance : DecidableRel rowDescR := fun a b =>
  inferInstanceAs (Decidable (b.confidence < a.confidence ∨
    (a.confidence = b.confidence ∧ b.created_at ≤ a.created_at)))

instance : IsTotal KnowledgeRow rowDescR where
  total a b := by
    rcases lt_trichotomy a.confidence b.confidence with h | h | h
    · exact Or.inr (Or.inl h)
    · rcases le_total b.created_at a.created_at with h' | h'
      · exact Or.inl (Or.inr ⟨h, h'⟩)
      · exact Or.inr (Or.inr ⟨h.symm, h'⟩)
    · exact Or.inl (Or.inl h)

instance : IsTrans KnowledgeRow rowDescR where
  trans a b c hab hbc := by
    rcases hab with h | ⟨he, hc⟩ <;> rcases hbc with h' | ⟨he', hc'⟩
    · exact Or.inl (h'.trans h)
    · exact Or.inl (he' ▸ h)
    · exact Or.inl (he ▸ h')
    · exact Or.inr ⟨he.trans he', hc'.trans hc⟩

/-- `YouTubeService.search_knowledge` (`youtube_service.py` lines
312–340): the SQL query
`WHERE content LIKE '%q%' OR saju_terms LIKE '%q%'
 ORDER BY confidence DESC, created_at DESC LIMIT limit`
over the stored rows, for wildcard-free queries. -/
def search_knowledge (db : List KnowledgeRow) (query : List Char)
    (limit : ℕ) : List KnowledgeRow :=
  let matched := db.filter fun r =>
    sqliteLikeInfix query r.content || sqliteLikeInfix query r.saju_terms_serialized
  (matched.insertionSort rowDescR).take limit

/-! ## `backend/simple_youtube_learner.py` and
`backend/saju_knowledge_enhancer.py` — the knowledge aggregator -/

/-- A value stored in a result dict of
`SimpleYouTubeLearner.search_learned_knowledge`
(`simple_youtube_learner.py` lines 58–64): a string, the float
confidence, or the parsed metadata dict (opaque here — the aggregator
never reads it). -/
inductive LearnedVal
  | vstr (s : List Char)
  | vnum (q : ℚ)
  | vdict
deriving DecidableEq, Repr

/-- A result dict of `search_learned_knowledge`, modelled as the
key–value list the Python code builds — so that key lookups, and the
`KeyError` for an absent key, are derived rather than assumed. -/
abbrev LearnedRow := List (String × LearnedVal)

/-- Python `d[key]` on a result dict; `none` models the `KeyError`
raised for an absent key. -/
def dictGet (d : LearnedRow) (key : String) : Option LearnedVal :=
  (d.find? fun kv => kv.1 == key).map (·.2)

/-- The result dict `search_learned_knowledge` builds for one stored
row (`simple_youtube_learner.py` lines 59–64): exactly the keys
`'content'`, `'type'`, `'confidence'`, `'metadata'` — in particular
there is no `'text'` key. -/
def mk_learned_row (content ktype : List Char) (confidence : ℚ) : LearnedRow :=
  [("content", .vstr content), ("type", .vstr ktype),
    ("confidence", .vnum confidence), ("metadata", .vdict)]

/-- The store-search dependency of the aggregator
(`self.learner.search_learned_knowledge(query, limit)`).  `.error`
models an exception escaping the search call into the aggregator's
`try` (the store catastrophically unavailable); `.ok rs` a normal
return, `rs = []` when the store is empty or nothing matches.  In the
program every returned row is a `mk_learned_row` dict. -/
abbrev LearnedSearch := List Char → ℕ → Except Unit (List LearnedRow)

/-- `birth_elements` dict of `_get_birth_elements`
(`saju_knowledge_enhancer.py` lines 86–92); `none` models a `None`
value. -/
structure BirthElements where
  year_gan : Option Char
  year_ji : Option Char
  month_ji : Option Char
deriving DecidableEq, Repr

/-- `birth_elements.values()` in dict insertion order. -/
def BirthElements.values (be : BirthElements) : List (Option Char) :=
  [be.year_gan, be.year_ji, be.month_ji]

/-- The month-branch table of `_get_birth_elements`
(`saju_knowledge_enhancer.py` line 84). -/
def MONTH_JI_LIST : List Char :=
  ['인', '묘', '진', '사', '오', '미', '신', '유', '술', '해', '자', '축']

/-- `_get_birth_elements` (`saju_knowledge_enhancer.py` lines 78–92).
The year indices are reduced mod 10/12 and always in range.  The month
index `birth_month - 1` follows Python list indexing: `birth_month = 0`
yields index `-1`, i.e. the last entry; `birth_month ≥ 13` raises
`IndexError`, which the bare `except` turns into three `None`s. -/
def get_birth_elements (birth_year birth_month _birth_day : ℕ) : BirthElements :=
  if 13 ≤ birth_month then ⟨none, none, none⟩
  else
    { year_gan := some (GAN.getD (birth_year % 10) '갑')
      year_ji := some (JI.getD (birth_year % 12) '자')
      month_ji := some (if birth_month = 0 then '축'
                        else MONTH_JI_LIST.getD (birth_month - 1) '인') }

/-- `high_value_keywords` (`saju_knowledge_enhancer.py` line 104). -/
def high_value_keywords : List (List Char) :=
  ["성격", "특징", "운세", "예측", "궁합", "재물", "직업"].map lc

/-- `_calculate_knowledge_relevance` (`saju_knowledge_enhancer.py`
lines 94–109): 0.3 per birth-element symbol occurring in the text plus
0.1 per high-value keyword occurring, capped at 1. -/
def calculate_knowledge_relevance (knowledge_text : List Char)
    (be : BirthElements) : ℚ :=
  let element_hits := (be.values.filter fun oc =>
    match oc with
    | some c => occursIn [c] knowledge_text
    | none => false).length
  let keyword_hits := (high_value_keywords.filter fun k =>
    occursIn k knowledge_text).length
  min ((element_hits : ℚ) * (3 / 10) + (keyword_hits : ℚ) * (1 / 10)) 1

/-- One entry of the aggregator's `relevant_knowledge` list
(`saju_knowledge_enhancer.py` lines 53–60); the presentational
`source_element` / `element_type` / `source_video` fields are
omitted. -/
structure Insight where
  knowledge_text : List Char
  knowledge_type : String
  relevance : ℚ
deriving DecidableEq, Repr

/-- The `element_adjustments` dict: a partial map over the five
elements (`none` = key absent). -/
structure AdjMap where
  mok : Option ℚ
  hwa : Option ℚ
  toh : Option ℚ
  geum : Option ℚ
  su : Option ℚ
deriving DecidableEq, Repr

namespace AdjMap

/-- The empty dict `{}`. -/
def empty : AdjMap := ⟨none, none, none, none, none⟩

def get (m : AdjMap) : Element → Option ℚ
  | .mok => m.mok
  | .hwa => m.hwa
  | .toh => m.toh
  | .geum => m.geum
  | .su => m.su

def set (m : AdjMap) : Element → ℚ → AdjMap
  | .mok, v => { m with mok := some v }
  | .hwa, v => { m with hwa := some v }
  | .toh, v => { m with toh := some v }
  | .geum, v => { m with geum := some v }
  | .su, v => { m with su := some v }

/-- Apply a function to every present value (the normalisation loop of
`saju_knowledge_enhancer.py` lines 141–142). -/
def mapValues (m : AdjMap) (f : ℚ → ℚ) : AdjMap :=
  ⟨m.mok.map f, m.hwa.map f, m.toh.map f, m.geum.map f, m.su.map f⟩

end AdjMap

/-- The Korean element character of each element (keys of the
adjustment dict and the characters searched in `analyze` loops). -/
def elementChar : Element → Char
  | .mok => '목'
  | .hwa => '화'
  | .toh => '토'
  | .geum => '금'
  | .su => '수'

/-- `positive_words` (`saju_knowledge_enhancer.py` line 122). -/
def positive_words : List (List Char) :=
  ["왕성", "강함", "좋", "발달", "성장", "번영"].map lc

/-- `negative_words` (`saju_knowledge_enhancer.py` line 123). -/
def negative_words : List (List Char) :=
  ["부족", "약함", "나쁨", "억제", "문제", "결핍"].map lc

/-- Inner loop body of `_analyze_element_balance_from_knowledge`
(`saju_knowledge_enhancer.py` lines 119–138) for one element and one
lower-cased knowledge text. -/
def elementAdjustStep (text : List Char) (adj : AdjMap) (e : Element) : AdjMap :=
  if occursIn [elementChar e] text then
    let adjustment : ℚ :=
      ((positive_words.filter fun w => occursIn w text).length : ℚ) * (1 / 10) -
        ((negative_words.filter fun w => occursIn w text).length : ℚ) * (1 / 10)
    match adj.get e with
    | some v => adj.set e (v + adjustment)
    | none => adj.set e adjustment
  else adj

/-- `_analyze_element_balance_from_knowledge`
(`saju_knowledge_enhancer.py` lines 111–144): accumulate signed deltas
per mentioned element over all knowledge texts (lower-cased), then
clamp every present entry to [-0.5, 0.5]. -/
def analyze_element_balance (relevant_knowledge : List Insight) : AdjMap :=
  let raw := relevant_knowledge.foldl
    (fun adj k =>
      let text := k.knowledge_text.map asciiLower
      [Element.mok, .hwa, .toh, .geum, .su].foldl (elementAdjustStep text) adj)
    AdjMap.empty
  raw.mapValues fun v => max (-(1 / 2)) (min (1 / 2) v)

/-- `_calculate_confidence_modifiers` (`saju_knowledge_enhancer.py`
lines 146–163), reduced to the consumed `base_confidence_adjustment`
value (the `element_specific_confidence` entry is always the empty
dict). -/
def calculate_confidence_modifiers (relevant_knowledge : List Insight) : ℚ :=
  let knowledge_count := relevant_knowledge.length
  let avg_relevance : ℚ :=
    (relevant_knowledge.map (·.relevance)).sum / (max knowledge_count 1 : ℚ)
  if 3 ≤ knowledge_count ∧ (1 : ℚ) / 2 ≤ avg_relevance then 1 / 10
  else if 1 ≤ knowledge_count ∧ (3 : ℚ) / 10 ≤ avg_relevance then 1 / 20
  else 0

/-- `_generate_additional_recommendations`
(`saju_knowledge_enhancer.py` lines 165–186). -/
def generate_additional_recommendations
    (relevant_knowledge : List Insight) : List String :=
  let types := relevant_knowledge.map (·.knowledge_type)
  (if "성격분석" ∈ types then ["성격 분석 결과를 바탕으로 번호 선택 방식을 개인화했습니다."] else []) ++
    (if "예측" ∈ types then ["운세 예측 지식을 활용하여 시기적 요소를 고려했습니다."] else []) ++
      (if "관계" ∈ types then ["인간관계 궁합을 고려하여 조화로운 번호 조합을 선택했습니다."] else [])

/-- The `insights` dict of `get_learned_saju_insights`
(`saju_knowledge_enhancer.py` lines 36–41).  `confidence_modifiers` is
`none` while the dict is still the initial `{}`, and
`some boost` once step 3 has stored
`{'base_confidence_adjustment': boost, ...}`. -/
structure Insights where
  relevant_knowledge : List Insight
  element_adjustments : AdjMap
  confidence_modifiers : Option ℚ
  additional_recommendations : List String
deriving DecidableEq, Repr

/-- The confidence boost a consumer reads from the insights dict:
`insights.get('confidence_modifiers', {}).get('base_confidence_adjustment', 0.0)`
(`prediction_service.py` lines 283 and 289). -/
def Insights.boost (i : Insights) : ℚ := i.confidence_modifiers.getD 0

/-- The insight-dict construction of `get_learned_saju_insights`
(`saju_knowledge_enhancer.py` lines 53–60).  It reads `result['text']`
and `result['type']`; a lookup of an absent key raises `KeyError`,
modelled by `.error` (a non-string value would fail in the relevance
computation and is modelled the same way).  The rows the learner
actually returns are `mk_learned_row` dicts, which carry `'content'`
and `'type'` but no `'text'` key, so on them this construction always
fails and the exception lands in the aggregator's `except`.  (The
presentational `source_element` / `element_type` / `source_video`
entries of the dict are not modelled; `result.get('video_title', …)`
cannot raise.) -/
def build_insight (be : BirthElements) (result : LearnedRow) :
    Except Unit Insight :=
  match dictGet result "text" with
  | some (.vstr knowledge_text) =>
      (match dictGet result "type" with
        | some (.vstr knowledge_type) =>
            .ok { knowledge_text := knowledge_text
                  knowledge_type := String.mk knowledge_type
                  relevance := calculate_knowledge_relevance knowledge_text be }
        | _ => .error ())
  | _ => .error ()

/-- The inner `for result in knowledge_results` loop of
`get_learned_saju_insights` (`saju_knowledge_enhancer.py` lines
52–61): append one insight per result; an exception in the insight
construction aborts the loop (`true` flag) with the insights appended
so far. -/
def appendInsights (be : BirthElements) :
    List LearnedRow → List Insight → List Insight × Bool
  | [], acc => (acc, false)
  | result :: rest, acc =>
      match build_insight be result with
      | .error _ => (acc, true)
      | .ok insight => appendInsights be rest (acc ++ [insight])

/-- The search loop of `get_learned_saju_insights`
(`saju_knowledge_enhancer.py` lines 47–61): walk the birth-element
seeds in dict order, skip `None` seeds, and run the insight loop over
each search's results; an exception — from the search call itself or a
`KeyError` in the insight construction — aborts everything with the
knowledge gathered so far (`true` flag). -/
def gatherKnowledge (search : LearnedSearch) (be : BirthElements) :
    List (Option Char) → List Insight → List Insight × Bool
  | [], acc => (acc, false)
  | none :: rest, acc => gatherKnowledge search be rest acc
  | some c :: rest, acc =>
      match search [c] 5 with
      | .error _ => (acc, true)
      | .ok results =>
          match appendInsights be results acc with
          | (acc2, true) => (acc2, true)
          | (acc2, false) => gatherKnowledge search be rest acc2

/-- `get_learned_saju_insights` (`saju_knowledge_enhancer.py` lines
32–76): gather knowledge for the three birth-element seeds, then
derive adjustments, confidence modifiers and recommendations; any
exception leaves the insights dict as accumulated so far and returns
it (`except` block lines 73–75). -/
def get_learned_saju_insights (search : LearnedSearch)
    (birth_year birth_month birth_day : ℕ) : Insights :=
  let birth_elements := get_birth_elements birth_year birth_month birth_day
  match gatherKnowledge search birth_elements birth_elements.values [] with
  | (acc, true) =>
      { relevant_knowledge := acc
        element_adjustments := AdjMap.empty
        confidence_modifiers := none
        additional_recommendations := [] }
  | (acc, false) =>
      { relevant_knowledge := acc
        element_adjustments := analyze_element_balance acc
        confidence_modifiers := some (calculate_confidence_modifiers acc)
        additional_recommendations := generate_additional_recommendations acc }

/-- The histogram update of `enhance_prediction_weights`
(`saju_knowledge_enhancer.py` lines 195–204): every element with a
stored adjustment has the adjustment added to its *histogram count*,
clamped below at 0; elements without an adjustment are untouched.  The
metadata block of lines 206–216 does not alter the histogram and is
not modelled. -/
def enhance_prediction_weights (oheang : Oheang) (insights : Insights) : Oheang :=
  [Element.mok, .hwa, .toh, .geum, .su].foldl
    (fun o e =>
      match insights.element_adjustments.get e with
      | some adjustment => o.set e (max 0 (o.get e + adjustment))
      | none => o)
    oheang

/-! ## Definitions transcribing the specification's words

These are *not* translations of the source; they formalise what the
specification sentences under scrutiny literally say, so that they can
be compared against the source-derived definitions above. -/

/-- "take the first N unique numbers": walk a list, keeping the first
occurrence of each number, stopping at `n` numbers. -/
def firstUniqueTake (n : ℕ) : List ℕ → List ℕ → List ℕ
  | [], acc => acc
  | x :: rest, acc =>
      if acc.length = n then acc
      else if x ∈ acc then firstUniqueTake n rest acc
      else firstUniqueTake n rest (acc ++ [x])

/-- Spec §4.5 step 5 as written: score *all 45* numbers
(`score(n) = frequencyTable[n] × weight(element(n))`), sort them by
score descending (stable, ties in ascending number order — one
deterministic reading), and take the first 7 unique numbers. -/
def spec_selection_all45 (freq : ℕ → ℕ) (saju_oheang : Oheang) : List ℕ :=
  let weights := calculate_saju_weights saju_oheang
  let score : ℕ → ℚ := fun n =>
    (freq n : ℚ) * (match get_number_element n with
      | some e => weights e
      | none => 1)
  let pairs := (List.range' 1 45).map fun n => (n, score n)
  let sorted := pairs.insertionSort (fun a b => b.2 ≤ a.2)
  firstUniqueTake 7 (sorted.map (·.1)) []

/-- Spec §4.5 step 1 as written: "if `enhancement` supplied,
`weight(e) += elementAdjustments[e]`" — the adjustment added to the
element weight itself (absent adjustments contribute 0). -/
def claim_weight_plus_adjustment (saju_oheang : Oheang) (adj : AdjMap)
    (e : Element) : ℚ :=
  calculate_saju_weights saju_oheang e + (adj.get e).getD 0

/-- Number of (possibly overlapping) literal occurrences of `t` in
`text` — "every literal occurrence of every dictionary term". -/
def occurrenceCount (t text : List Char) : ℕ :=
  (List.range (text.length + 1)).countP fun i => leadsWith t (text.drop i)

/-- Spec §4.2 step 3 as written, with
"totalMatchedTermOccurrences counts every literal occurrence of every
dictionary term in the sentence": confidence from the total occurrence
count. -/
def claim_confidence_occurrences (text : List Char) : ℚ :=
  let total : ℕ := (saju_terms.map fun p =>
    (p.2.map fun t => occurrenceCount t text).sum).sum
  min ((total : ℚ) / max ((text.length : ℚ) / 100) 1) 1

/-- The per-category distinct-match count the code actually uses
(`analyze_saju_content`): each dictionary term counts at most once per
category, by substring membership. -/
def distinct_term_matches (text : List Char) : ℕ :=
  (saju_terms.map fun p => (p.2.filter fun t => occursIn t text).length).sum

/-- Spec §4.3 as written: the search "matches case-sensitively against
content and against a serialized form of matchedTerms". -/
def claim_case_sensitive_match (q : List Char) (r : KnowledgeRow) : Bool :=
  occursIn q r.content || occursIn q r.saju_terms_serialized

/-! ## C2 — determinism of the element resolver -/

/-- C2 (amended): the resolver is deterministic in its saju pillars and
element histogram — for any lunar-conversion backend and any birth
date, the pillars and the histogram do not depend on the wall clock,
on the success path and on the fallback path alike.  (The clock *does*
enter the `analysis_date` field, refuting the claim's "identical
result value overall" — see the counterexample.) -/
theorem c2_pillars_and_histogram_deterministic (lunar : LunarConv)
    (year month day hour : ℕ) (now₁ now₂ : ℕ) :
    (analyze_saju lunar now₁ year month day hour).saju =
      (analyze_saju lunar now₂ year month day hour).saju ∧
    (analyze_saju lunar now₁ year month day hour).oheang =
      (analyze_saju lunar now₂ year month day hour).oheang := by
  by_cases hv : dateValid year month day = true <;>
    simp [analyze_saju, analyze_saju_try, hv]

/-- C2 (counterexample): two calls of `analyze_saju` with the identical
birth date (1990-05-15, hour 10) but different wall-clock readings
return *different* overall result values, because the result embeds
`datetime.datetime.now()` in its `analysis_date` field. -/
theorem c2_counterexample_result_depends_on_clock :
    analyze_saju (fun y m d => (y, m, d)) 0 1990 5 15 10 ≠
      analyze_saju (fun y m d => (y, m, d)) 1 1990 5 15 10 := by
  intro h
  have h2 := congrArg SajuResult.analysis_date h
  by_cases hv : dateValid 1990 5 15 = true <;>
    simp [analyze_saju, analyze_saju_try, hv] at h2

/-! ## C3 — invalid birth dates -/

/-- C3 (amended): for an invalid birth date the resolver does *not*
propagate any error; the internal `ValueError` is caught and a
fabricated default result — histogram 목1 화1 토2 금2 수2 and an
`error` message — is returned, and `get_saju_analysis` hands the
fabricated histogram to the caller as a normal profile. -/
theorem c3_invalid_date_returns_fabricated_profile (lunar : LunarConv)
    (now year month day hour : ℕ) (hv : dateValid year month day = false) :
    (analyze_saju lunar now year month day hour).error =
      some "day is out of range for month" ∧
    (analyze_saju lunar now year month day hour).oheang = ⟨1, 1, 2, 2, 2⟩ ∧
    get_saju_analysis lunar now year month day hour = ⟨1, 1, 2, 2, 2⟩ := by
  simp [analyze_saju, analyze_saju_try, get_saju_analysis, hv]

/-- Witness for `c3_invalid_date_returns_fabricated_profile` at the
concrete invalid date 1990-02-30. -/
theorem c3_witness :
    dateValid 1990 2 30 = false ∧
    get_saju_analysis (fun y m d => (y, m, d)) 0 1990 2 30 10 = ⟨1, 1, 2, 2, 2⟩ :=
  ⟨by decide,
    (c3_invalid_date_returns_fabricated_profile (fun y m d => (y, m, d)) 0
      1990 2 30 10 (by decide)).2.2⟩

/-- C3 (counterexample): at the invalid date 1990-02-30 the `try` body
does raise internally, but `analyze_saju` still returns a full result
whose fabricated histogram reaches the caller through
`get_saju_analysis` — the failure never propagates, refuting the
claim. -/
theorem c3_counterexample_no_propagation :
    (analyze_saju_try (fun y m d => (y, m, d)) 0 1990 2 30 10).isOk = false ∧
    (analyze_saju (fun y m d => (y, m, d)) 0 1990 2 30 10).error ≠ none ∧
    get_saju_analysis (fun y m d => (y, m, d)) 0 1990 2 30 10 = ⟨1, 1, 2, 2, 2⟩ :=
  of_decide_eq_true (by with_unfolding_all rfl)

/-! ## C7 — knowledge store search -/

/-- C7 (amended): `search_knowledge` returns at most `limit` records,
ordered by confidence descending then recency descending, and a record
is returned only if it is a stored record that the query matches as a
substring of its content or serialized terms — but after SQLite's
default ASCII case folding (`LIKE` is case-insensitive on ASCII), not
case-sensitively. -/
theorem c7_search_limit_order_and_matching (db : List KnowledgeRow)
    (query : List Char) (limit : ℕ) :
    (search_knowledge db query limit).length ≤ limit ∧
    List.Sorted rowDescR (search_knowledge db query limit) ∧
    ∀ r ∈ search_knowledge db query limit,
      r ∈ db ∧ (sqliteLikeInfix query r.content ||
        sqliteLikeInfix query r.saju_terms_serialized) = true := by
  refine ⟨?_, ?_, ?_⟩
  · simp [search_knowledge, List.length_take]
  · exact List.Pairwise.sublist (List.take_sublist _ _)
      (List.sorted_insertionSort rowDescR _)
  · intro r hr
    have h1 : r ∈ List.insertionSort rowDescR
        (db.filter fun r => sqliteLikeInfix query r.content ||
          sqliteLikeInfix query r.saju_terms_serialized) :=
      List.mem_of_mem_take hr
    have h2 := (List.perm_insertionSort rowDescR _).mem_iff.mp h1
    exact ⟨(List.mem_filter.mp h2).1, (List.mem_filter.mp h2).2⟩

/-- C7 (counterexample): a stored row whose content is `"ABC is strong"`
is returned for the query `"abc"` (SQLite `LIKE` folds ASCII case),
although `"abc"` does not occur case-sensitively in the content or in
the serialized terms — refuting "returned only if the query matches
case-sensitively". -/
theorem c7_counterexample_case_insensitive :
    search_knowledge
        [{ video_id := "v", video_title := "t", content := lc "ABC is strong"
           saju_terms_serialized := lc "serialized-terms"
           sentence_type := "general", confidence := 1 / 2, created_at := 5 }]
        (lc "abc") 10 =
      [{ video_id := "v", video_title := "t", content := lc "ABC is strong"
         saju_terms_serialized := lc "serialized-terms"
         sentence_type := "general", confidence := 1 / 2, created_at := 5 }] ∧
    claim_case_sensitive_match (lc "abc")
      { video_id := "v", video_title := "t", content := lc "ABC is strong"
        saju_terms_serialized := lc "serialized-terms"
        sentence_type := "general", confidence := 1 / 2, created_at := 5 } = false :=
  of_decide_eq_true (by with_unfolding_all rfl)

/-! ## C8 — confidence boost thresholds -/

/-- C8: the aggregator's confidence boost is 0.10 when there are at
least 3 matches with mean relevance at least 0.5, else 0.05 when there
is at least 1 match with mean relevance at least 0.3, else 0. -/
theorem c8_confidence_boost_thresholds (relevant_knowledge : List Insight) :
    calculate_confidence_modifiers relevant_knowledge =
      if 3 ≤ relevant_knowledge.length ∧
          (1 : ℚ) / 2 ≤ meanQ (relevant_knowledge.map (·.relevance)) then 1 / 10
      else if 1 ≤ relevant_knowledge.length ∧
          (3 : ℚ) / 10 ≤ meanQ (relevant_knowledge.map (·.relevance)) then 1 / 20
      else 0 := by
  cases relevant_knowledge with
  | nil => simp [calculate_confidence_modifiers, meanQ]
  | cons a l =>
      have hmax : max (((a :: l).length : ℕ) : ℚ) 1 = ((a :: l).length : ℚ) :=
        max_eq_left (by exact_mod_cast Nat.succ_le_succ (Nat.zero_le l.length))
      simp only [calculate_confidence_modifiers, meanQ, hmax, List.length_map]

/-! ## C6 — aggregator degradation -/

/-- Helper: the insight construction fails on every row the learner
actually returns — the `result['text']` lookup raises `KeyError`
because the row's keys are 'content'/'type'/'confidence'/'metadata'. -/
theorem build_insight_fails_on_learner_row (be : BirthElements)
    (content ktype : List Char) (confidence : ℚ) :
    build_insight be (mk_learned_row content ktype confidence) = .error () := rfl

/-- Helper: when every search result row is a learner-built dict, the
gathering loop never accumulates an insight — it either completes with
nothing (all searches empty) or aborts on the first row's `KeyError` —
whatever the seeds.  This is the program's actual behaviour on a
non-empty store. -/
theorem gatherKnowledge_of_learner_rows (search : LearnedSearch)
    (be : BirthElements)
    (h : ∀ q limit rows, search q limit = .ok rows →
      ∀ r ∈ rows, ∃ c k conf, r = mk_learned_row c k conf) :
    ∀ (seeds : List (Option Char)) (acc : List Insight),
      gatherKnowledge search be seeds acc = (acc, false) ∨
        gatherKnowledge search be seeds acc = (acc, true) := by
  intro seeds
  induction seeds with
  | nil => intro acc; exact Or.inl rfl
  | cons s rest ih =>
      intro acc
      cases s with
      | none => simpa [gatherKnowledge] using ih acc
      | some c =>
          cases hs : search [c] 5 with
          | error e => right; simp [gatherKnowledge, hs]
          | ok results =>
              cases results with
              | nil => simpa [gatherKnowledge, hs, appendInsights] using ih acc
              | cons r rest' =>
                  obtain ⟨cc, kk, conf, rfl⟩ :=
                    h [c] 5 (r :: rest') hs r (List.mem_cons_self r rest')
                  right
                  simp [gatherKnowledge, hs, appendInsights,
                    build_insight_fails_on_learner_row]

/-- Helper: when every store search fails or returns no rows, the
gathering loop accumulates nothing, whatever the seeds. -/
theorem gatherKnowledge_of_trivial_search (search : LearnedSearch)
    (be : BirthElements)
    (h : ∀ q limit, search q limit = .error () ∨ search q limit = .ok []) :
    ∀ (seeds : List (Option Char)) (acc : List Insight),
      gatherKnowledge search be seeds acc = (acc, false) ∨
        gatherKnowledge search be seeds acc = (acc, true) := by
  intro seeds
  induction seeds with
  | nil => intro acc; exact Or.inl rfl
  | cons s rest ih =>
      intro acc
      cases s with
      | none => simpa [gatherKnowledge] using ih acc
      | some c =>
          rcases h [c] 5 with hs | hs
          · right; simp [gatherKnowledge, hs]
          · simpa [gatherKnowledge, hs, appendInsights] using ih acc

/-- C6: `get_learned_saju_insights` never raises, and when the store is
unavailable (every search call fails) or every search returns an empty
result set, it returns the degraded insights: no relevant knowledge,
an empty adjustment dict, confidence boost 0 and no recommendations. -/
theorem c6_enhance_degrades_without_raising (search : LearnedSearch)
    (birth_year birth_month birth_day : ℕ)
    (h : ∀ q limit, search q limit = .error () ∨ search q limit = .ok []) :
    (get_learned_saju_insights search birth_year birth_month birth_day).relevant_knowledge
        = [] ∧
    (get_learned_saju_insights search birth_year birth_month birth_day).element_adjustments
        = AdjMap.empty ∧
    (get_learned_saju_insights search birth_year birth_month birth_day).boost = 0 ∧
    (get_learned_saju_insights search birth_year birth_month birth_day).additional_recommendations
        = [] := by
  have hcalc : calculate_confidence_modifiers [] = 0 := by
    simp [calculate_confidence_modifiers]
  rcases gatherKnowledge_of_trivial_search search
      (get_birth_elements birth_year birth_month birth_day) h
      (get_birth_elements birth_year birth_month birth_day).values [] with hg | hg <;>
    simp [get_learned_saju_insights, hg, Insights.boost, analyze_element_balance,
      AdjMap.mapValues, AdjMap.empty, generate_additional_recommendations, hcalc]

/-- Witness for `c6_enhance_degrades_without_raising`: the concrete
always-empty store at the birth date 1990-05-15. -/
theorem c6_witness :
    (get_learned_saju_insights (fun _ _ => .ok []) 1990 5 15).element_adjustments
        = AdjMap.empty ∧
    (get_learned_saju_insights (fun _ _ => .ok []) 1990 5 15).boost = 0 :=
  ⟨(c6_enhance_degrades_without_raising (fun _ _ => .ok []) 1990 5 15
      fun _ _ => Or.inr rfl).2.1,
    (c6_enhance_degrades_without_raising (fun _ _ => .ok []) 1990 5 15
      fun _ _ => Or.inr rfl).2.2.1⟩

/-! ## C4 — element weights and enhancement adjustments -/

/-- C4 (amended): the element weight is
`1 + (histogram[e]/maxHistogramValue) × 0.5` for a positive entry and
`1` otherwise, computed over the *adjusted* histogram: a supplied
`elementAdjustments[e]` is added to the histogram entry for `e`
(clamped below at 0) before weights are computed — it is not added to
the weight itself. -/
theorem c4_adjustments_update_histogram_not_weight (o : Oheang)
    (insights : Insights) (e : Element) :
    (enhance_prediction_weights o insights).get e =
      (match insights.element_adjustments.get e with
        | some a => max 0 (o.get e + a)
        | none => o.get e) ∧
    calculate_saju_weights (enhance_prediction_weights o insights) e =
      (if (enhance_prediction_weights o insights).get e > 0 then
        1 + (enhance_prediction_weights o insights).get e /
          maxOheang (enhance_prediction_weights o insights) * (1 / 2)
      else 1) := by
  refine ⟨?_, rfl⟩
  rcases insights with ⟨rk, ⟨am, ah, ao, ag, as'⟩, cm, ar⟩
  cases e <;> cases am <;> cases ah <;> cases ao <;> cases ag <;> cases as' <;> rfl

/-- C4 (counterexample): with histogram 목 = 4 (others 0) and
adjustment 목 = +0.1, the code's weight for 목 is 1.5 (the adjustment
disappears into the histogram, which then equals its own maximum),
while "weight(e) += elementAdjustments[e]" as the spec states it gives
1.6. -/
theorem c4_counterexample_weight_differs :
    calculate_saju_weights
        (enhance_prediction_weights ⟨4, 0, 0, 0, 0⟩
          ⟨[], ⟨some (1 / 10), none, none, none, none⟩, none, []⟩) .mok = 3 / 2 ∧
    claim_weight_plus_adjustment ⟨4, 0, 0, 0, 0⟩
        ⟨some (1 / 10), none, none, none, none⟩ .mok = 8 / 5 ∧
    (3 / 2 : ℚ) ≠ 8 / 5 :=
  of_decide_eq_true (by with_unfolding_all rfl)

/-! ## C5 — classifier confidence -/

/-- Helper: dropping the categories with no match before summing does
not change the total match count. -/
theorem sum_collectFoundTerms (text : List Char) :
    ∀ L : List (String × List (List Char)),
      ((collectFoundTerms text L).map fun p => p.2.length).sum =
        (L.map fun p => (p.2.filter fun t => occursIn t text).length).sum := by
  intro L
  induction L with
  | nil => rfl
  | cons c L ih =>
      by_cases hc : (c.2.filter fun term => occursIn term text).isEmpty = true
      · have h0 : (c.2.filter fun t => occursIn t text).length = 0 :=
          List.length_eq_zero.mpr (List.isEmpty_iff.mp hc)
        simp [collectFoundTerms, hc, h0, ih]
      · simp [collectFoundTerms, hc, ih]

/-- Helper: the classifier's matched-term count is the distinct-match
count over all categories. -/
theorem term_count_eq_distinct_matches (text : List Char) :
    (analyze_saju_content text).term_count = distinct_term_matches text :=
  sum_collectFoundTerms text saju_terms

/-- Helper: the classifier's confidence in closed form — distinct-match
count over `max(len/100, 1)`, capped at 1. -/
theorem analyze_saju_content_confidence_eq (text : List Char) :
    (analyze_saju_content text).confidence =
      min ((distinct_term_matches text : ℚ) /
        max ((text.length : ℚ) / 100) 1) 1 := by
  show min (((analyze_saju_content text).term_count : ℚ) /
      max ((text.length : ℚ) / 100) 1) 1 = _
  rw [term_count_eq_distinct_matches]

/-- C5 (amended): the classifier's confidence equals
`min(1, distinctMatchedTerms / max(len/100, 1))`, where each
dictionary term counts at most once per category (substring
membership, not an occurrence count), and the confidence always lies
in [0, 1]. -/
theorem c5_confidence_formula_and_bounds (text : List Char) :
    (analyze_saju_content text).confidence =
      min ((distinct_term_matches text : ℚ) /
        max ((text.length : ℚ) / 100) 1) 1 ∧
    0 ≤ (analyze_saju_content text).confidence ∧
    (analyze_saju_content text).confidence ≤ 1 := by
  refine ⟨analyze_saju_content_confidence_eq text, ?_, ?_⟩
  · rw [analyze_saju_content_confidence_eq text]
    have hden : (0 : ℚ) < max ((text.length : ℚ) / 100) 1 :=
      lt_of_lt_of_le one_pos (le_max_right _ _)
    exact le_min (div_nonneg (Nat.cast_nonneg _) hden.le) zero_le_one
  · rw [analyze_saju_content_confidence_eq text]
    exact min_le_right _ _

set_option maxRecDepth 100000 in
/-- C5 (counterexample): in the 101-character sentence `"목목" + "z"×99`
the term 목 occurs twice, so the spec's every-occurrence confidence is
`min(1, 2/1.01) = 1`, but the code counts the term once and returns
`min(1, 1/1.01) = 100/101 ≠ 1`. -/
theorem c5_counterexample_occurrences_vs_membership :
    (analyze_saju_content (lc "목목" ++ List.replicate 99 'z')).confidence =
      100 / 101 ∧
    claim_confidence_occurrences (lc "목목" ++ List.replicate 99 'z') = 1 ∧
    (100 / 101 : ℚ) ≠ 1 :=
  of_decide_eq_true (by with_unfolding_all rfl)

/-! ## C10 — histogram invariant of the resolver -/

/-- Helper: a `getD` at an in-range index is a member of `GAN`. -/
theorem GAN_getD_mem {i : ℕ} (h : i < 10) : GAN.getD i '갑' ∈ GAN := by
  interval_cases i <;> decide

/-- Helper: a `getD` at an in-range index is a member of `JI`. -/
theorem JI_getD_mem {i : ℕ} (h : i < 12) : JI.getD i '자' ∈ JI := by
  interval_cases i <;> decide

/-- Helper: `pymod` into a positive natural modulus lands below it. -/
theorem pymod_toNat_lt (a : ℤ) {b : ℕ} (hb : 0 < b) : (pymod a b).toNat < b := by
  have hb' : (0 : ℤ) < (b : ℤ) := by exact_mod_cast hb
  have h1 := pymod_lt a hb'
  have h2 := pymod_nonneg a hb'
  omega

/-- Helper: bumping one element keeps every histogram entry
non-negative. -/
theorem bump_get_nonneg (o : Oheang) (e : Element)
    (h : ∀ e', 0 ≤ o.get e') : ∀ e', 0 ≤ (o.bump e).get e' := by
  have h1 := h .mok; have h2 := h .hwa; have h3 := h .toh
  have h4 := h .geum; have h5 := h .su
  intro e'
  cases e <;> cases e' <;>
    simp [Oheang.bump, Oheang.set, Oheang.get] at * <;> linarith

/-- Helper: one stem-accumulation step keeps entries non-negative. -/
theorem addGan_get_nonneg (o : Oheang) (c : Char)
    (h : ∀ e', 0 ≤ o.get e') : ∀ e', 0 ≤ (addGan o c).get e' := by
  unfold addGan
  cases GAN_OHEANG c with
  | none => exact h
  | some e => exact bump_get_nonneg o e h

/-- Helper: one branch-accumulation step keeps entries non-negative. -/
theorem addJi_get_nonneg (o : Oheang) (c : Char)
    (h : ∀ e', 0 ≤ o.get e') : ∀ e', 0 ≤ (addJi o c).get e' := by
  unfold addJi
  cases JI_OHEANG c with
  | none => exact h
  | some e => exact bump_get_nonneg o e h

/-- Helper: every stem of the 10-symbol cycle maps to exactly one
element, so an accumulation step over a member of `GAN` adds exactly 1
to the histogram total. -/
theorem addGan_total {c : Char} (hc : c ∈ GAN) (o : Oheang) :
    (addGan o c).total = o.total + 1 := by
  have hs : (GAN_OHEANG c).isSome = true :=
    (by decide : ∀ c ∈ GAN, (GAN_OHEANG c).isSome = true) c hc
  unfold addGan
  cases hg : GAN_OHEANG c with
  | none => rw [hg] at hs; cases hs
  | some e => exact Oheang.total_bump o e

/-- Helper: every branch of the 12-symbol cycle maps to exactly one
element. -/
theorem addJi_total {c : Char} (hc : c ∈ JI) (o : Oheang) :
    (addJi o c).total = o.total + 1 := by
  have hs : (JI_OHEANG c).isSome = true :=
    (by decide : ∀ c ∈ JI, (JI_OHEANG c).isSome = true) c hc
  unfold addJi
  cases hg : JI_OHEANG c with
  | none => rw [hg] at hs; cases hs
  | some e => exact Oheang.total_bump o e

/-- Helper: folding the stem accumulation over a list of stems adds the
list's length to the total. -/
theorem foldl_addGan_total :
    ∀ (l : List Char) (o : Oheang), (∀ c ∈ l, c ∈ GAN) →
      (l.foldl addGan o).total = o.total + l.length := by
  intro l
  induction l with
  | nil => intro o _; simp
  | cons c l ih =>
      intro o h
      have hc := h c (List.mem_cons_self c l)
      have hrest : ∀ x ∈ l, x ∈ GAN := fun x hx => h x (List.mem_cons_of_mem c hx)
      have := ih (addGan o c) hrest
      rw [List.foldl_cons, this, addGan_total hc o]
      push_cast [List.length_cons]
      ring

/-- Helper: folding the branch accumulation over a list of branches
adds the list's length to the total. -/
theorem foldl_addJi_total :
    ∀ (l : List Char) (o : Oheang), (∀ c ∈ l, c ∈ JI) →
      (l.foldl addJi o).total = o.total + l.length := by
  intro l
  induction l with
  | nil => intro o _; simp
  | cons c l ih =>
      intro o h
      have hc := h c (List.mem_cons_self c l)
      have hrest : ∀ x ∈ l, x ∈ JI := fun x hx => h x (List.mem_cons_of_mem c hx)
      have := ih (addJi o c) hrest
      rw [List.foldl_cons, this, addJi_total hc o]
      push_cast [List.length_cons]
      ring

/-- Helper: the folds keep every entry non-negative. -/
theorem foldl_addGan_nonneg :
    ∀ (l : List Char) (o : Oheang), (∀ e, 0 ≤ o.get e) →
      ∀ e, 0 ≤ (l.foldl addGan o).get e := by
  intro l
  induction l with
  | nil => intro o h; exact h
  | cons c l ih =>
      intro o h
      rw [List.foldl_cons]
      exact ih (addGan o c) (addGan_get_nonneg o c h)

/-- Helper: the folds keep every entry non-negative. -/
theorem foldl_addJi_nonneg :
    ∀ (l : List Char) (o : Oheang), (∀ e, 0 ≤ o.get e) →
      ∀ e, 0 ≤ (l.foldl addJi o).get e := by
  intro l
  induction l with
  | nil => intro o h; exact h
  | cons c l ih =>
      intro o h
      rw [List.foldl_cons]
      exact ih (addJi o c) (addJi_get_nonneg o c h)

/-- Helper: accumulating 4 stems and 4 branches from the cycles into
the zero histogram yields non-negative entries summing to 8. -/
theorem oheang_of_eight_symbols (g1 g2 g3 g4 j1 j2 j3 j4 : Char)
    (hg1 : g1 ∈ GAN) (hg2 : g2 ∈ GAN) (hg3 : g3 ∈ GAN) (hg4 : g4 ∈ GAN)
    (hj1 : j1 ∈ JI) (hj2 : j2 ∈ JI) (hj3 : j3 ∈ JI) (hj4 : j4 ∈ JI) :
    (∀ e, 0 ≤ (([j1, j2, j3, j4].foldl addJi
        ([g1, g2, g3, g4].foldl addGan ⟨0, 0, 0, 0, 0⟩)).get e)) ∧
    ([j1, j2, j3, j4].foldl addJi
        ([g1, g2, g3, g4].foldl addGan ⟨0, 0, 0, 0, 0⟩)).total = 8 := by
  have hgs : ∀ c ∈ [g1, g2, g3, g4], c ∈ GAN := by
    intro c hc
    simp only [List.mem_cons, List.not_mem_nil, or_false] at hc
    rcases hc with rfl | rfl | rfl | rfl <;> assumption
  have hjs : ∀ c ∈ [j1, j2, j3, j4], c ∈ JI := by
    intro c hc
    simp only [List.mem_cons, List.not_mem_nil, or_false] at hc
    rcases hc with rfl | rfl | rfl | rfl <;> assumption
  constructor
  · intro e
    refine foldl_addJi_nonneg _ _ (foldl_addGan_nonneg _ _ ?_) e
    intro e'; cases e' <;> norm_num [Oheang.get]
  · rw [foldl_addJi_total _ _ hjs, foldl_addGan_total _ _ hgs]
    norm_num [Oheang.total]

/-- C10: every result of the resolver — success and fallback path alike
— carries a histogram over exactly the five elements with non-negative
entries summing to exactly 8, because each of the 8 pillar symbols
maps to exactly one element (and the hard-coded fallback histogram
1+1+2+2+2 also sums to 8). -/
theorem c10_histogram_nonneg_sums_to_eight (lunar : LunarConv)
    (now year month day hour : ℕ) :
    (∀ e, 0 ≤ ((analyze_saju lunar now year month day hour).oheang).get e) ∧
    ((analyze_saju lunar now year month day hour).oheang).total = 8 := by
  by_cases hv : dateValid year month day = true
  · simp only [analyze_saju, analyze_saju_try, hv, not_true, if_neg, ite_false,
      not_false_iff, if_false]
    refine oheang_of_eight_symbols _ _ _ _ _ _ _ _ ?_ ?_ ?_ ?_ ?_ ?_ ?_ ?_
    · exact GAN_getD_mem (pymod_toNat_lt _ (by norm_num))
    · exact GAN_getD_mem (pymod_toNat_lt _ (by norm_num))
    · exact GAN_getD_mem (pymod_toNat_lt _ (by norm_num))
    · exact GAN_getD_mem (Nat.mod_lt _ (by norm_num))
    · exact JI_getD_mem (pymod_toNat_lt _ (by norm_num))
    · exact JI_getD_mem (pymod_toNat_lt _ (by norm_num))
    · exact JI_getD_mem (pymod_toNat_lt _ (by norm_num))
    · exact JI_getD_mem (Nat.mod_lt _ (by norm_num))
  · simp only [analyze_saju, analyze_saju_try, hv]
    constructor
    · intro e; cases e <;> norm_num [Oheang.get]
    · norm_num [Oheang.total]

/-! ## C9 — confidence bounds and monotonicity in the boost -/

/-- Helper: every histogram entry is at most the dict maximum. -/
theorem get_le_maxOheang (o : Oheang) (e : Element) : o.get e ≤ maxOheang o := by
  cases e <;> simp [maxOheang, Oheang.values, Oheang.get, le_max_iff]

/-- Helper: element weights are never negative (they are 1, or
1 + a non-negative bonus). -/
theorem calculate_saju_weights_nonneg (o : Oheang) (e : Element) :
    0 ≤ calculate_saju_weights o e := by
  unfold calculate_saju_weights
  by_cases hc : o.get e > 0
  · rw [if_pos hc]
    have hmax : 0 < maxOheang o := lt_of_lt_of_le hc (get_le_maxOheang o e)
    have hdiv : 0 ≤ o.get e / maxOheang o * (1 / 2) :=
      mul_nonneg (div_nonneg hc.le hmax.le) (by norm_num)
    linarith
  · rw [if_neg hc]
    norm_num

/-- Helper: every weighted score is non-negative (frequency count times
non-negative weight). -/
theorem score_entries_score_nonneg (top_numbers : List (ℕ × ℕ))
    (saju_oheang : Oheang) :
    ∀ si ∈ score_entries top_numbers saju_oheang, 0 ≤ si.score := by
  intro si hsi
  obtain ⟨nf, _, rfl⟩ := List.mem_map.mp hsi
  show 0 ≤ (nf.2 : ℚ) * _
  refine mul_nonneg (Nat.cast_nonneg _) ?_
  cases hge : get_number_element nf.1 with
  | some e => simpa [hge] using calculate_saju_weights_nonneg saju_oheang e
  | none => simp [hge]

/-- Helper: the compatibility pass and the sort do not change scores,
so every entry of the sorted list has a non-negative score. -/
theorem sorted_scores_score_nonneg (top_numbers : List (ℕ × ℕ))
    (saju_oheang : Oheang) :
    ∀ si ∈ sorted_scores_of top_numbers saju_oheang, 0 ≤ si.score := by
  intro si hsi
  have h1 : si ∈ scores_with_compat top_numbers saju_oheang :=
    (List.perm_insertionSort scoreDescR _).mem_iff.mp hsi
  obtain ⟨si', hsi', rfl⟩ := List.mem_map.mp h1
  exact score_entries_score_nonneg top_numbers saju_oheang si' hsi'

/-- Helper: a mean of non-negative rationals is non-negative. -/
theorem meanQ_nonneg {l : List ℚ} (h : ∀ x ∈ l, 0 ≤ x) : 0 ≤ meanQ l :=
  div_nonneg (List.sum_nonneg h) (Nat.cast_nonneg _)

/-- Helper: the engine's base confidence always lies in [0, 1]. -/
theorem confidence_of_bounds (top_numbers : List (ℕ × ℕ))
    (saju_oheang : Oheang) :
    0 ≤ confidence_of top_numbers saju_oheang ∧
      confidence_of top_numbers saju_oheang ≤ 1 := by
  unfold confidence_of
  refine ⟨le_min ?_ zero_le_one, min_le_right _ _⟩
  by_cases hm : max_score_of top_numbers saju_oheang > 0
  · rw [if_pos hm]
    refine div_nonneg (meanQ_nonneg ?_) hm.le
    intro x hx
    obtain ⟨si, hsi, rfl⟩ := List.mem_map.mp hx
    exact sorted_scores_score_nonneg top_numbers saju_oheang si
      (List.mem_of_mem_take hsi)
  · rw [if_neg hm]
    norm_num

/-- Helper: applying a boost to a confidence in [0, 1] stays in [0, 1]. -/
theorem apply_confidence_boost_bounds (c b : ℚ) (h0 : 0 ≤ c) (h1 : c ≤ 1) :
    0 ≤ apply_confidence_boost c b ∧ apply_confidence_boost c b ≤ 1 := by
  unfold apply_confidence_boost
  by_cases hb : b > 0
  · rw [if_pos hb]
    exact ⟨le_min (by norm_num) (by linarith), min_le_left _ _⟩
  · rw [if_neg hb]
    exact ⟨h0, h1⟩

/-- Helper: the boosted confidence is monotone in the boost, for a base
confidence at most 1. -/
theorem apply_confidence_boost_mono (c : ℚ) (h1 : c ≤ 1) {b₁ b₂ : ℚ}
    (hb : b₁ ≤ b₂) :
    apply_confidence_boost c b₁ ≤ apply_confidence_boost c b₂ := by
  unfold apply_confidence_boost
  by_cases hb1 : b₁ > 0 <;> by_cases hb2 : b₂ > 0
  · rw [if_pos hb1, if_pos hb2]
    exact min_le_min le_rfl (by linarith)
  · exact absurd (lt_of_lt_of_le hb1 hb) hb2
  · rw [if_neg hb1, if_pos hb2]
    exact le_min h1 (by linarith)
  · rw [if_neg hb1, if_neg hb2]

/-- C9: holding the candidate list (derived from the frequency table)
and the element profile fixed, the final prediction confidence —
`min(1, base + boost)` for a positive boost, the base otherwise — is
monotonically non-decreasing in the confidence boost, and always lies
in [0, 1]. -/
theorem c9_confidence_monotone_and_bounded (top_numbers : List (ℕ × ℕ))
    (saju_oheang : Oheang) (b₁ b₂ : ℚ) (hb : b₁ ≤ b₂) :
    apply_confidence_boost
        ((predict_with_saju_weighting top_numbers saju_oheang).confidence) b₁ ≤
      apply_confidence_boost
        ((predict_with_saju_weighting top_numbers saju_oheang).confidence) b₂ ∧
    0 ≤ apply_confidence_boost
        ((predict_with_saju_weighting top_numbers saju_oheang).confidence) b₁ ∧
    apply_confidence_boost
        ((predict_with_saju_weighting top_numbers saju_oheang).confidence) b₁ ≤ 1 ∧
    0 ≤ apply_confidence_boost
        ((predict_with_saju_weighting top_numbers saju_oheang).confidence) b₂ ∧
    apply_confidence_boost
        ((predict_with_saju_weighting top_numbers saju_oheang).confidence) b₂ ≤ 1 := by
  have hc : (predict_with_saju_weighting top_numbers saju_oheang).confidence =
      confidence_of top_numbers saju_oheang := rfl
  rw [hc]
  obtain ⟨h0, h1⟩ := confidence_of_bounds top_numbers saju_oheang
  obtain ⟨ha1, ha2⟩ := apply_confidence_boost_bounds _ b₁ h0 h1
  obtain ⟨hb1, hb2⟩ := apply_confidence_boost_bounds _ b₂ h0 h1
  exact ⟨apply_confidence_boost_mono _ h1 hb, ha1, ha2, hb1, hb2⟩

/-- Witness for `c9_confidence_monotone_and_bounded` at a concrete
candidate list, profile, and boost pair 0 ≤ 1/10. -/
theorem c9_witness :
    apply_confidence_boost
        ((predict_with_saju_weighting [(7, 10)] ⟨1, 1, 1, 1, 1⟩).confidence) 0 ≤
      apply_confidence_boost
        ((predict_with_saju_weighting [(7, 10)] ⟨1, 1, 1, 1, 1⟩).confidence) (1 / 10) ∧
    0 ≤ apply_confidence_boost
        ((predict_with_saju_weighting [(7, 10)] ⟨1, 1, 1, 1, 1⟩).confidence) 0 ∧
    apply_confidence_boost
        ((predict_with_saju_weighting [(7, 10)] ⟨1, 1, 1, 1, 1⟩).confidence) 0 ≤ 1 ∧
    0 ≤ apply_confidence_boost
        ((predict_with_saju_weighting [(7, 10)] ⟨1, 1, 1, 1, 1⟩).confidence) (1 / 10) ∧
    apply_confidence_boost
        ((predict_with_saju_weighting [(7, 10)] ⟨1, 1, 1, 1, 1⟩).confidence) (1 / 10) ≤ 1 :=
  c9_confidence_monotone_and_bounded [(7, 10)] ⟨1, 1, 1, 1, 1⟩ 0 (1 / 10)
    (by norm_num)

/-! ## C1 — number selection -/

/-- Helper: the selection loop keeps the accumulator duplicate-free,
within 1..45, and no longer than 7. -/
theorem pickNumbers_spec :
    ∀ (l : List ScoreInfo) (acc : List ℕ),
      acc.Nodup → (∀ n ∈ acc, 1 ≤ n ∧ n ≤ 45) → acc.length ≤ 7 →
      (pickNumbers l acc).Nodup ∧
        (∀ n ∈ pickNumbers l acc, 1 ≤ n ∧ n ≤ 45) ∧
        (pickNumbers l acc).length ≤ 7 := by
  intro l
  induction l with
  | nil => intro acc h1 h2 h3; exact ⟨h1, h2, h3⟩
  | cons si rest ih =>
      intro acc h1 h2 h3
      simp only [pickNumbers]
      split
      · exact ⟨h1, h2, h3⟩
      · rename_i h7
        split
        · rename_i hcond
          obtain ⟨hnot, hlo, hhi⟩ := hcond
          refine ih (acc ++ [si.number]) ?_ ?_ ?_
          · simp [List.nodup_append, h1, hnot]
          · intro n hn
            rcases List.mem_append.mp hn with h | h
            · exact h2 n h
            · rcases List.mem_singleton.mp h with rfl
              exact ⟨hlo, hhi⟩
          · have : acc.length < 7 := lt_of_le_of_ne h3 h7
            simp only [List.length_append, List.length_singleton]
            omega
        · exact ih acc h1 h2 h3

/-- Helper: the fill loop only appends to its accumulator. -/
theorem fillNumbers_append :
    ∀ (l acc : List ℕ), ∃ t, fillNumbers l acc = acc ++ t := by
  intro l
  induction l with
  | nil => intro acc; exact ⟨[], (List.append_nil acc).symm⟩
  | cons n rest ih =>
      intro acc
      simp only [fillNumbers]
      split
      · exact ⟨[], (List.append_nil acc).symm⟩
      · split
        · exact ih acc
        · obtain ⟨t, ht⟩ := ih (acc ++ [n])
          exact ⟨n :: t, by rw [ht]; simp⟩

/-- Helper: the fill loop preserves the selection invariants and, after
one pass, has either reached 7 numbers or absorbed every candidate. -/
theorem fillNumbers_spec :
    ∀ (l acc : List ℕ),
      acc.Nodup → (∀ n ∈ acc, 1 ≤ n ∧ n ≤ 45) →
      (∀ n ∈ l, 1 ≤ n ∧ n ≤ 45) → acc.length ≤ 7 →
      (fillNumbers l acc).Nodup ∧
        (∀ n ∈ fillNumbers l acc, 1 ≤ n ∧ n ≤ 45) ∧
        (fillNumbers l acc).length ≤ 7 ∧
        ((fillNumbers l acc).length = 7 ∨ ∀ n ∈ l, n ∈ fillNumbers l acc) := by
  intro l
  induction l with
  | nil =>
      intro acc h1 h2 _ h3
      exact ⟨h1, h2, h3, Or.inr fun n hn => absurd hn (List.not_mem_nil n)⟩
  | cons n rest ih =>
      intro acc h1 h2 hl h3
      have hn45 : 1 ≤ n ∧ n ≤ 45 := hl n (List.mem_cons_self n rest)
      have hrest : ∀ m ∈ rest, 1 ≤ m ∧ m ≤ 45 :=
        fun m hm => hl m (List.mem_cons_of_mem n hm)
      simp only [fillNumbers]
      split
      · rename_i h7
        exact ⟨h1, h2, h3, Or.inl (le_antisymm h3 h7)⟩
      · rename_i h7
        split
        · rename_i hmem
          obtain ⟨r1, r2, r3, r4⟩ := ih acc h1 h2 hrest h3
          refine ⟨r1, r2, r3, ?_⟩
          rcases r4 with h | hall
          · exact Or.inl h
          · refine Or.inr fun m hm => ?_
            rcases List.mem_cons.mp hm with rfl | hm'
            · obtain ⟨t, ht⟩ := fillNumbers_append rest acc
              rw [ht]
              exact List.mem_append_left t hmem
            · exact hall m hm'
        · rename_i hmem
          have hlen : (acc ++ [n]).length ≤ 7 := by
            have : acc.length < 7 := by omega
            simp only [List.length_append, List.length_singleton]
            omega
          have hnd : (acc ++ [n]).Nodup := by
            simp [List.nodup_append, h1, hmem]
          have hb : ∀ m ∈ acc ++ [n], 1 ≤ m ∧ m ≤ 45 := by
            intro m hm
            rcases List.mem_append.mp hm with h | h
            · exact h2 m h
            · rcases List.mem_singleton.mp h with rfl
              exact hn45
          obtain ⟨r1, r2, r3, r4⟩ := ih (acc ++ [n]) hnd hb hrest hlen
          refine ⟨r1, r2, r3, ?_⟩
          rcases r4 with h | hall
          · exact Or.inl h
          · refine Or.inr fun m hm => ?_
            rcases List.mem_cons.mp hm with hm0 | hm'
            · obtain ⟨t, ht⟩ := fillNumbers_append rest (acc ++ [n])
              rw [ht]
              simp [hm0]
            · exact hall m hm'

/-- Helper: filling from the full candidate list 1..45 always reaches
exactly 7 numbers. -/
theorem fillNumbers_range_spec (acc : List ℕ) (h1 : acc.Nodup)
    (h2 : ∀ n ∈ acc, 1 ≤ n ∧ n ≤ 45) (h3 : acc.length ≤ 7) :
    (fillNumbers (List.range' 1 45) acc).Nodup ∧
      (∀ n ∈ fillNumbers (List.range' 1 45) acc, 1 ≤ n ∧ n ≤ 45) ∧
      (fillNumbers (List.range' 1 45) acc).length = 7 := by
  have hrange : ∀ n ∈ List.range' 1 45, 1 ≤ n ∧ n ≤ 45 := by
    intro n hn
    rw [List.mem_range'_1] at hn
    omega
  obtain ⟨r1, r2, r3, r4⟩ :=
    fillNumbers_spec (List.range' 1 45) acc h1 h2 hrange h3
  refine ⟨r1, r2, ?_⟩
  rcases r4 with h | hall
  · exact h
  · exfalso
    have hsub : List.range' 1 45 ⊆ fillNumbers (List.range' 1 45) acc :=
      fun n hn => hall n hn
    have hlen := (List.subperm_of_subset (List.nodup_range' 1 45) hsub).length_le
    rw [List.length_range'] at hlen
    omega

/-- Helper: the engine's predicted numbers always form a list of
exactly 7 distinct numbers in 1..45, for any candidate list. -/
theorem predicted_numbers_of_spec (top_numbers : List (ℕ × ℕ))
    (saju_oheang : Oheang) :
    (predicted_numbers_of top_numbers saju_oheang).length = 7 ∧
      (predicted_numbers_of top_numbers saju_oheang).Nodup ∧
      ∀ n ∈ predicted_numbers_of top_numbers saju_oheang, 1 ≤ n ∧ n ≤ 45 := by
  obtain ⟨p1, p2, p3⟩ :=
    pickNumbers_spec (sorted_scores_of top_numbers saju_oheang) []
      List.nodup_nil (by intro n hn; cases hn) (by simp)
  obtain ⟨f1, f2, f3⟩ :=
    fillNumbers_range_spec (pickNumbers (sorted_scores_of top_numbers saju_oheang) [])
      p1 p2 p3
  have hperm := List.perm_insertionSort (α := ℕ) (· ≤ ·)
    (fillNumbers (List.range' 1 45)
      (pickNumbers (sorted_scores_of top_numbers saju_oheang) []))
  refine ⟨?_, ?_, ?_⟩
  · rw [show (predicted_numbers_of top_numbers saju_oheang) =
      List.insertionSort (· ≤ ·) (fillNumbers (List.range' 1 45)
        (pickNumbers (sorted_scores_of top_numbers saju_oheang) [])) from rfl,
      hperm.length_eq, f3]
  · exact hperm.nodup_iff.mpr f1
  · intro n hn
    exact f2 n (hperm.mem_iff.mp hn)

/-- C1 (amended): for every frequency table and element profile, the
engine (invoked by `generate_prediction` on the top-15 most frequent
numbers, with the count fixed at 7) returns a list of exactly 7
numbers, all unique and all in [1, 45]; a shortfall is filled with the
lowest unused numbers in ascending order, deterministically (the fill
loop `fillNumbers` walks 1..45 in order). -/
theorem c1_selection_properties (freq : ℕ → ℕ) (saju_oheang : Oheang) :
    ((predict_pipeline freq saju_oheang).predicted_numbers).length = 7 ∧
      ((predict_pipeline freq saju_oheang).predicted_numbers).Nodup ∧
      ∀ n ∈ (predict_pipeline freq saju_oheang).predicted_numbers,
        1 ≤ n ∧ n ≤ 45 := by
  have h := predicted_numbers_of_spec (analyze_top_numbers freq) saju_oheang
  simpa only [predict_pipeline, predict_with_saju_weighting] using h

set_option maxRecDepth 100000 in
set_option maxHeartbeats 2000000 in
/-- C1 (counterexample): with the frequency table 10..24 ↦ 10,
1..9 ↦ 7, 25..45 ↦ 0 and histogram 목 = 4 (others 0), the code selects
[10..16] — numbers 1..9 never enter the candidate list because
`analyze_number_patterns` keeps only the top 15 by raw frequency —
while sorting *all 45* numbers by weighted score descending (1..9
score 10.5, beating 10) selects [1..7]: the two selections share no
number, refuting "sorts all 45 numbers". -/
theorem c1_counterexample_top15_not_all45 :
    (predict_pipeline
        (fun n => if 10 ≤ n ∧ n ≤ 24 then 10 else if n ≤ 9 then 7 else 0)
        ⟨4, 0, 0, 0, 0⟩).predicted_numbers = [10, 11, 12, 13, 14, 15, 16] ∧
    spec_selection_all45
        (fun n => if 10 ≤ n ∧ n ≤ 24 then 10 else if n ≤ 9 then 7 else 0)
        ⟨4, 0, 0, 0, 0⟩ = [1, 2, 3, 4, 5, 6, 7] ∧
    ∀ n ∈ [1, 2, 3, 4, 5, 6, 7], n ∉ [10, 11, 12, 13, 14, 15, 16] :=
  of_decide_eq_true (by with_unfolding_all rfl)

end SajunLotto
